import Mathlib

/-
Verification of the `vm-repair` Azure CLI extension orchestration module
(`azext_vm_repair/custom.py`): a shallow embedding of the `create`, `restore`
and `run` operations and proofs of the specified properties.

Python strings are embedded as `List Char`; exceptions as an explicit error
type threaded through `Except`; calls to external collaborators (the `az`
shell-outs, the VM query, the remote script catalog, the helper module
`repair_utils` which is outside the sources at hand) are fields of an
environment record, so one execution of an operation is a pure function of
that environment.
-/

namespace VmRepair

/-- Python strings, at character granularity. -/
abbrev Str := List Char

/-- A single-quote character, kept out of string literals. -/
def sq : Str := [Char.ofNat 39]

/-- Python `s.lstrip(chars)`: drop leading characters that are members of `chars`. -/
def pyLstrip (s chars : Str) : Str :=
  s.dropWhile (fun c => decide (c ∈ chars))

/-- Python `s.rstrip(chars)`: drop trailing characters that are members of the
character set `chars` (set semantics, not suffix removal). -/
def pyRstrip (s chars : Str) : Str :=
  (s.reverse.dropWhile (fun c => decide (c ∈ chars))).reverse

/-- Python `s.strip(chars)`. -/
def pyStrip (s chars : Str) : Str :=
  pyRstrip (pyLstrip s chars) chars

/-- Python `s.strip(chr(10))`, as applied to each az-command output. -/
def stripNL (s : Str) : Str :=
  pyStrip s [Char.ofNat 10]

/-- Python `s.replace(c, rep)` for a one-character pattern. -/
def pyReplaceChar (c : Char) (rep : Str) : Str → Str
  | [] => []
  | a :: rest =>
      if a = c then rep ++ pyReplaceChar c rep rest
      else a :: pyReplaceChar c rep rest

/-- Python `s.split(c)` for a one-character separator. -/
def pySplitChar (c : Char) (s : Str) : List Str :=
  s.foldr
    (fun a acc =>
      match acc with
      | [] => [[a]]
      | h :: t => if a = c then [] :: h :: t else (a :: h) :: t)
    [[]]

/-- The exceptions that can cross the boundaries modelled here.  `otherExc`
stands for any exception reaching a `except Exception` catch-all; the payload
is the Python `str(exception)` rendering. -/
inductive PyExc where
  | keyboardInterrupt : PyExc
  | azCommandError : Str → PyExc
  | skuNotAvailableError : Str → PyExc
  | unmanagedDiskCopyError : Str → PyExc
  | windowsOsNotAvailableError : PyExc
  | runScriptNotFoundForIdError : Str → PyExc
  | requestException : Str → PyExc
  | otherExc : Str → PyExc
deriving DecidableEq, Repr

/-- A value stored in a returned mapping: a string or a list of strings. -/
inductive RVal where
  | s : Str → RVal
  | l : List Str → RVal
deriving DecidableEq, Repr

/-- The mappings the operations return (Python dicts with string keys). -/
abbrev ReturnDict := List (Str × RVal)

/-- Key lookup in a returned mapping (all dicts built here have distinct keys). -/
def lookupRD (k : Str) : ReturnDict → Option RVal
  | [] => none
  | (k2, v) :: rest => if k2 = k then some v else lookupRD k rest

/-- The STATUS_SUCCESS constant of custom.py. -/
def STATUS_SUCCESS : Str := "SUCCESS".toList

/-- The STATUS_ERROR constant of custom.py. -/
def STATUS_ERROR : Str := "ERROR".toList

/-- Modelled from the spec: `_handle_command_error` (in `repair_utils`, outside
the sources at hand) builds the structured error result: the function always
returns a structured result with `status=ERROR` and diagnostic detail. -/
def handle_command_error (error_detail message : Str) : ReturnDict :=
  [("status".toList, RVal.s STATUS_ERROR),
   ("message".toList, RVal.s message),
   ("error_detail".toList, RVal.s error_detail)]

/-- The source VM as consumed by the orchestrator: OS family, location, the
OS-disk attributes, and the managed/unmanaged classification computed by
`_uses_managed_disk` (helper outside the sources at hand; per the spec it is
the disk mode of the source VM, a fact of the queried VM). -/
structure VM where
  isLinux : Bool
  location : Str
  osDiskName : Str
  osDiskManagedSku : Option Str
  osDiskVhdUri : Str
  usesManagedDisk : Bool
deriving DecidableEq, Repr

/-- External collaborators of `create`: the VM query, the `repair_utils`
helpers that shell out or compute derived data, the az-command executor, the
resource listing and the storage-URI parser.  Each fallible call is `Except`. -/
structure CreateEnv where
  getVm : Except PyExc VM
  resourceTag : Str
  fetchWindowsOsUrn : Except PyExc Str
  fetchCompatibleSku : Except PyExc (Option Str)
  fetchDiskSku : Except PyExc Str
  azCommand : Str → Except PyExc Str
  listResourceIdsInRg : Str → List Str
  storageAccount : Str → Str × Str × Str

/-- The az vm create command template: group, name, tag, image, admin password. -/
def baseCreateVmCommand (g n tag image password : Str) : Str :=
  "az vm create -g ".toList ++ g ++ " -n ".toList ++ n ++ " --tag ".toList ++ tag ++
    " --image ".toList ++ image ++ " --admin-password ".toList ++ password

/-- The repair-VM create command after the username (Windows only) and size
fields are appended. -/
def fullCreateVmCommand (g n tag image password username : Str) (is_linux : Bool)
    (sku : Str) : Str :=
  let c := baseCreateVmCommand g n tag image password
  let c := if is_linux then c else c ++ " --admin-username ".toList ++ username
  c ++ " --size ".toList ++ sku

/-- The az group create command template: location, group name. -/
def createResourceGroupCommand (loc group_name : Str) : Str :=
  "az group create -l ".toList ++ loc ++ " -n ".toList ++ group_name

/-- The az disk create command template: group, name, source, sku, location, id query. -/
def copyDiskCommand (g n s sku loc : Str) : Str :=
  "az disk create -g ".toList ++ g ++ " -n ".toList ++ n ++ " --source ".toList ++ s ++
    " --sku ".toList ++ sku ++ " --location ".toList ++ loc ++ " --query id -o tsv".toList

/-- The az vm disk attach command template: group, vm name, disk id. -/
def attachDiskCommand (g repair id : Str) : Str :=
  "az vm disk attach -g ".toList ++ g ++ " --vm-name ".toList ++ repair ++
    " --name ".toList ++ id

/-- The az storage account show-connection-string command template. -/
def connectionStringCommand (g n : Str) : Str :=
  "az storage account show-connection-string -g ".toList ++ g ++ " -n ".toList ++ n ++
    " --query connectionString -o tsv".toList

/-- The az storage blob snapshot command template. -/
def makeSnapshotCommand (c n con_string : Str) : Str :=
  "az storage blob snapshot -c ".toList ++ c ++ " -n ".toList ++ n ++
    " --connection-string \"".toList ++ con_string ++ "\" --query snapshot -o tsv".toList

/-- The az storage blob copy start command template. -/
def copySnapshotCommand (c name source con_string : Str) : Str :=
  "az storage blob copy start -c ".toList ++ c ++ " -b ".toList ++ name ++
    " --source-uri ".toList ++ source ++ " --connection-string \"".toList ++
    con_string ++ "\"".toList

/-- The az storage blob show copy-status command template. -/
def copyCheckCommand (c name con_string : Str) : Str :=
  "az storage blob show -c ".toList ++ c ++ " -n ".toList ++ name ++
    " --connection-string \"".toList ++ con_string ++
    "\" --query properties.copy.status -o tsv".toList

/-- The az vm unmanaged-disk attach command template: group, disk name, vm name, vhd uri. -/
def attachUnmanagedCommand (g disk_name vm_name uri : Str) : Str :=
  "az vm unmanaged-disk attach -g ".toList ++ g ++ " -n ".toList ++ disk_name ++
    " --vm-name ".toList ++ vm_name ++ " --vhd-uri ".toList ++ uri

/-- The OS-image resolution at the top of the try block of `create`: the fixed
`"UbuntuLTS"` constant for Linux, `_fetch_compatible_windows_os_urn` otherwise. -/
def osImageUrn (env : CreateEnv) (source_vm : VM) : Except PyExc Str :=
  if source_vm.isLinux then Except.ok ("UbuntuLTS".toList) else env.fetchWindowsOsUrn

/-- The managed-path disk-SKU resolution: the SKU attached to the OS disk of the VM,
with a fallback disk query (`_fetch_disk_sku`) when the VM is deallocated. -/
def resolveDiskSku (env : CreateEnv) (source_vm : VM) : Except PyExc Str :=
  match source_vm.osDiskManagedSku with
  | some s => Except.ok s
  | none => env.fetchDiskSku

/-- The body of the try block of `create`.  On success it hands back the copied-disk
id, the (possibly `.vhd`-suffixed) copied-disk name and the repair-group
resource listing; any failure is the raised exception. -/
def createTry (env : CreateEnv)
    (resource_group_name repair_password repair_username repair_vm_name
      copy_disk_name repair_group_name : Str)
    (source_vm : VM) (resource_tag : Str) : Except PyExc (Str × Str × List Str) := do
  let os_image_urn ← osImageUrn env source_vm
  let skuOpt ← env.fetchCompatibleSku
  match skuOpt with
  | none =>
      Except.error (PyExc.skuNotAvailableError
        ("Failed to find compatible VM size for source VM".toList ++ sq ++
          "s OS disk within given region and subscription.".toList))
  | some sku => do
    let create_repair_vm_command :=
      fullCreateVmCommand repair_group_name repair_vm_name resource_tag os_image_urn
        repair_password repair_username source_vm.isLinux sku
    let _ ← env.azCommand (createResourceGroupCommand source_vm.location repair_group_name)
    if source_vm.usesManagedDisk then do
      let target_disk_name := source_vm.osDiskName
      let disk_sku ← resolveDiskSku env source_vm
      let copy_disk_command :=
        copyDiskCommand resource_group_name copy_disk_name target_disk_name disk_sku
          source_vm.location
      let _ ← env.azCommand (create_repair_vm_command ++ " --validate".toList)
      let copy_disk_id_raw ← env.azCommand copy_disk_command
      let copy_disk_id := stripNL copy_disk_id_raw
      let _ ← env.azCommand create_repair_vm_command
      let _ ← env.azCommand (attachDiskCommand repair_group_name repair_vm_name copy_disk_id)
      Except.ok (copy_disk_id, copy_disk_name, env.listResourceIdsInRg repair_group_name)
    else do
      let os_disk_uri := source_vm.osDiskVhdUri
      let copy_disk_name := copy_disk_name ++ ".vhd".toList
      let (account_name, container, blob) := env.storageAccount os_disk_uri
      let _ ← env.azCommand (create_repair_vm_command ++ " --validate".toList)
      let conn_raw ← env.azCommand (connectionStringCommand resource_group_name account_name)
      let connection_string := stripNL conn_raw
      let snap_raw ← env.azCommand (makeSnapshotCommand container blob connection_string)
      let snapshot_timestamp := stripNL snap_raw
      let snapshot_uri := os_disk_uri ++ "?snapshot=".toList ++ snapshot_timestamp
      let _ ← env.azCommand
        (copySnapshotCommand container copy_disk_name snapshot_uri connection_string)
      let copy_disk_id := pyRstrip os_disk_uri blob ++ copy_disk_name
      let _ ← env.azCommand (create_repair_vm_command ++ " --use-unmanaged-disk".toList)
      let copy_raw ← env.azCommand (copyCheckCommand container copy_disk_name connection_string)
      let copy_result := stripNL copy_raw
      if copy_result ≠ "success".toList then
        Except.error (PyExc.unmanagedDiskCopyError ("Unmanaged disk copy failed.".toList))
      else do
        let _ ← env.azCommand
          (attachUnmanagedCommand repair_group_name copy_disk_name repair_vm_name copy_disk_id)
        Except.ok (copy_disk_id, copy_disk_name, env.listResourceIdsInRg repair_group_name)

/-- The str renderings and fixed detail strings of the except clauses of `create`. -/
def createErrorDetail : PyExc → Str
  | PyExc.keyboardInterrupt => "Command interrupted by user input.".toList
  | PyExc.azCommandError m => m
  | PyExc.skuNotAvailableError m => m
  | PyExc.unmanagedDiskCopyError m => m
  | PyExc.windowsOsNotAvailableError => "Compatible Windows OS image not available.".toList
  | PyExc.runScriptNotFoundForIdError m => m
  | PyExc.requestException m => m
  | PyExc.otherExc m => m

/-- The per-exception human-readable messages of the except clauses of `create`
(every category not listed falls to the `except Exception` catch-all). -/
def createErrorMessage : PyExc → Str
  | PyExc.keyboardInterrupt => "Command interrupted by user input. Cleaning up resources.".toList
  | PyExc.azCommandError _ => "Repair create failed. Cleaning up created resources.".toList
  | PyExc.skuNotAvailableError _ =>
      "Please check if the current subscription can create more VM resources. Cleaning up created resources.".toList
  | PyExc.unmanagedDiskCopyError _ =>
      "Repair create failed. Please try again at another time. Cleaning up created resources.".toList
  | PyExc.windowsOsNotAvailableError =>
      "A compatible Windows OS image is not available at this time, please check subscription.".toList
  | _ => "An unexpected error occurred. Try running again with the --debug flag to debug.".toList

/-- The success message of `create` (quotes written via `sq`). -/
def createSuccessMessage (repair_vm_name repair_group_name copy_disk_name
    resource_group_name vm_name : Str) : Str :=
  "Your repair VM ".toList ++ sq ++ repair_vm_name ++ sq ++
    " has been created in the resource group ".toList ++ sq ++ repair_group_name ++ sq ++
    " with disk ".toList ++ sq ++ copy_disk_name ++ sq ++
    " attached as data disk. Please use this VM to troubleshoot and repair. Once the repairs are complete use the command ".toList ++
    sq ++ "az vm repair restore -n ".toList ++ vm_name ++ " -g ".toList ++
    resource_group_name ++ " --verbose".toList ++ sq ++
    " to restore disk to the source VM. Note that the copied disk is created within the original resource group ".toList ++
    sq ++ resource_group_name ++ sq ++ ".".toList

/-- Everything one invocation of an operation leaves behind: the returned
mapping, the `_clean_up_resources` invocations (resource group, confirm flag)
and the exception the except clauses caught, if any. -/
structure CmdResult where
  dict : ReturnDict
  cleanups : List (Str × Bool)
  caught : Option PyExc
deriving DecidableEq, Repr

/-- `create` (custom.py lines 47-228).  The source-VM query and the derived
attributes sit before the try block, so a failure there propagates to the
caller (`Except.error`); every failure inside the try block is converted into
an ERROR mapping and followed by one non-interactive best-effort cleanup of
the repair resource group. -/
def create (env : CreateEnv)
    (vm_name resource_group_name repair_password repair_username repair_vm_name
      copy_disk_name repair_group_name : Str) : Except PyExc CmdResult := do
  let source_vm ← env.getVm
  let resource_tag := env.resourceTag
  match createTry env resource_group_name repair_password repair_username
      repair_vm_name copy_disk_name repair_group_name source_vm resource_tag with
  | Except.error e =>
      Except.ok
        { dict := handle_command_error (createErrorDetail e) (createErrorMessage e)
          cleanups := [(repair_group_name, false)]
          caught := some e }
  | Except.ok (copy_disk_id, copy_disk_name2, created_resources) =>
      Except.ok
        { dict :=
            [("status".toList, RVal.s STATUS_SUCCESS),
             ("message".toList, RVal.s (createSuccessMessage repair_vm_name
                repair_group_name copy_disk_name2 resource_group_name vm_name)),
             ("repair_vm_name".toList, RVal.s repair_vm_name),
             ("copied_disk_name".toList, RVal.s copy_disk_name2),
             ("copied_disk_uri".toList, RVal.s copy_disk_id),
             ("repair_resouce_group".toList, RVal.s repair_group_name),
             ("resource_tag".toList, RVal.s resource_tag),
             ("created_resources".toList, RVal.l (created_resources ++ [copy_disk_id]))]
          cleanups := []
          caught := none }

/-- External collaborators of `restore`.  `getRepairVm` yields the repair VM
data disks as (name, `vhd.uri`) pairs, the uri absent when the disk has no vhd.
`cachedIsManaged` models a flag a prior `create` could have persisted and made
available to this invocation; the code never consults it, which claim C4 makes
explicit. -/
structure RestoreEnv where
  getVm : Except PyExc VM
  parseRepairVmId : Except PyExc (Str × Str)
  getRepairVm : Except PyExc (List (Str × Option Str))
  azCommand : Str → Except PyExc Str
  cachedIsManaged : Bool

/-- The az vm disk detach command template: group, repair vm name, disk name. -/
def detachDiskCommand (g repair disk : Str) : Str :=
  "az vm disk detach -g ".toList ++ g ++ " --vm-name ".toList ++ repair ++
    " --name ".toList ++ disk

/-- The az vm update os-disk command template: group, vm name, disk name. -/
def attachFixedCommand (g n disk : Str) : Str :=
  "az vm update -g ".toList ++ g ++ " -n ".toList ++ n ++ " --os-disk ".toList ++ disk

/-- The az vm unmanaged-disk detach command template: group, repair vm name, disk name. -/
def detachUnmanagedCommand (g repair disk : Str) : Str :=
  "az vm unmanaged-disk detach -g ".toList ++ g ++ " --vm-name ".toList ++ repair ++
    " --name ".toList ++ disk

/-- The az vm update set-vhd-uri command template: group, vm name, vhd uri. -/
def attachUnmanagedVhdCommand (g n uri : Str) : Str :=
  "az vm update -g ".toList ++ g ++ " -n ".toList ++ n ++
    " --set storageProfile.osDisk.vhd.uri=\"".toList ++ uri ++ "\"".toList

/-- The list comprehension `[disk.vhd.uri for disk in data_disks if disk.name == disk_name]`;
a matching disk without a vhd raises an AttributeError (a generic exception). -/
def matchingDiskUris (disk_name : Str) : List (Str × Option Str) → Except PyExc (List Str)
  | [] => Except.ok []
  | (n, u) :: rest =>
      if n = disk_name then
        match u with
        | none => Except.error (PyExc.otherExc ("AttributeError".toList))
        | some uri => do
            let tail ← matchingDiskUris disk_name rest
            Except.ok (uri :: tail)
      else matchingDiskUris disk_name rest

/-- What `restore` leaves behind: the returned mapping, the az commands issued
in order, the cleanup invocations, which branch of the managed/unmanaged `if`
executed, and the caught exception, if any. -/
structure RestoreOut where
  dict : ReturnDict
  cmds : List Str
  cleanups : List (Str × Bool)
  managedBranch : Bool
  caught : Option PyExc
deriving DecidableEq, Repr

/-- The detach-then-attach-then-clean-up tail shared by both branches of
the try block of `restore`: issue the detach command, then the attach command, and
on success clean up the repair resource group with `confirm = not yes`. -/
def detachAttachClean (env : RestoreEnv) (repair_resource_group : Str) (yes : Bool)
    (dc ac source_disk : Str) :
    Except PyExc Str × List Str × List (Str × Bool) :=
  match env.azCommand dc with
  | Except.error e => (Except.error e, [dc], [])
  | Except.ok _ =>
      match env.azCommand ac with
      | Except.error e => (Except.error e, [dc, ac], [])
      | Except.ok _ => (Except.ok source_disk, [dc, ac], [(repair_resource_group, !yes)])

/-- The body of the try block of `restore`: detach the named disk from the repair
VM, attach it back to the source VM, then clean up the repair resource group
(confirmation unless `yes`).  Returns the outcome (`source_disk` on success),
the issued commands and the cleanup invocations. -/
def restoreTry (env : RestoreEnv)
    (vm_name resource_group_name disk_name repair_vm_name repair_resource_group : Str)
    (yes : Bool) (source_vm : VM) :
    Except PyExc Str × List Str × List (Str × Bool) :=
  if source_vm.usesManagedDisk then
    detachAttachClean env repair_resource_group yes
      (detachDiskCommand repair_resource_group repair_vm_name disk_name)
      (attachFixedCommand resource_group_name vm_name disk_name)
      source_vm.osDiskName
  else
    match env.getRepairVm with
    | Except.error e => (Except.error e, [], [])
    | Except.ok data_disks =>
        match matchingDiskUris disk_name data_disks with
        | Except.error e => (Except.error e, [], [])
        | Except.ok uris =>
            match uris.head? with
            | none => (Except.error (PyExc.otherExc ("list index out of range".toList)), [], [])
            | some disk_uri =>
                detachAttachClean env repair_resource_group yes
                  (detachUnmanagedCommand repair_resource_group repair_vm_name disk_name)
                  (attachUnmanagedVhdCommand resource_group_name vm_name disk_uri)
                  source_vm.osDiskVhdUri

/-- The detail strings of the except clauses of `restore`. -/
def restoreErrorDetail : PyExc → Str
  | PyExc.keyboardInterrupt => "Command interrupted by user input.".toList
  | PyExc.azCommandError m => m
  | PyExc.skuNotAvailableError m => m
  | PyExc.unmanagedDiskCopyError m => m
  | PyExc.windowsOsNotAvailableError => []
  | PyExc.runScriptNotFoundForIdError m => m
  | PyExc.requestException m => m
  | PyExc.otherExc m => m

/-- The messages of the except clauses of `restore` (KeyboardInterrupt,
AzCommandError, then the catch-all). -/
def restoreErrorMessage : PyExc → Str
  | PyExc.keyboardInterrupt =>
      "Command interrupted by user input. If the restore command fails at retry, please rerun the repair process from ".toList ++
        sq ++ "az vm repair create".toList ++ sq ++ ".".toList
  | PyExc.azCommandError _ =>
      "Repair restore failed. If the restore command fails at retry, please rerun the repair process from ".toList ++
        sq ++ "az vm repair create".toList ++ sq ++ ".".toList
  | _ => "An unexpected error occurred. Try running again with the --debug flag to debug.".toList

/-- The success message of `restore`. -/
def restoreSuccessMessage (disk_name vm_name source_disk resource_group_name : Str) : Str :=
  sq ++ disk_name ++ sq ++ " successfully attached to ".toList ++ sq ++ vm_name ++ sq ++
    " as an OS disk. Please test your repairs and once confirmed, you may choose to delete the source OS disk ".toList ++
    sq ++ source_disk ++ sq ++ " within resource group ".toList ++ sq ++
    resource_group_name ++ sq ++ " manually if you no longer need it, to avoid any undesired costs.".toList

/-- `restore` (custom.py lines 231-320).  The source-VM query and the
repair-VM-id parsing sit before the try block, so a failure there propagates
to the caller; failures inside the try block become an ERROR mapping with no
cleanup attempted. -/
def restore (env : RestoreEnv)
    (vm_name resource_group_name disk_name : Str) (yes : Bool) :
    Except PyExc RestoreOut := do
  let source_vm ← env.getVm
  let is_managed := source_vm.usesManagedDisk
  let (repair_vm_name, repair_resource_group) ← env.parseRepairVmId
  match restoreTry env vm_name resource_group_name disk_name repair_vm_name
      repair_resource_group yes source_vm with
  | (Except.error e, cmds, cleanups) =>
      Except.ok
        { dict := handle_command_error (restoreErrorDetail e) (restoreErrorMessage e)
          cmds := cmds
          cleanups := cleanups
          managedBranch := is_managed
          caught := some e }
  | (Except.ok source_disk, cmds, cleanups) =>
      Except.ok
        { dict :=
            [("status".toList, RVal.s STATUS_SUCCESS),
             ("message".toList, RVal.s (restoreSuccessMessage disk_name vm_name
                source_disk resource_group_name))]
          cmds := cmds
          cleanups := cleanups
          managedBranch := is_managed
          caught := none }

/-- A parsed per-line log record (`_parse_run_script_raw_logs` output):
a level tag (Output/Error/Log-Start/Log-End) and the message. -/
structure LogRecord where
  level : Str
  message : Str
deriving DecidableEq, Repr

/-- External collaborators of `run`.  `processBash`/`processPs` are the
`repair_utils` parameter serializers (outside the sources at hand; their
output is arbitrary text here), `fetchRunScriptPath` queries the remote
catalog, `extractOutput` is the JSON decode plus stdout/stderr split of the
run-command payload, `checkScriptSucceeded` and `parseRawLogs` are the
`repair_utils` log inspectors, all modelled from the spec. -/
structure RunEnv where
  getVm : Except PyExc VM
  parseRepairVmId : Except PyExc (Str × Str)
  rootpath : Str
  fetchRunScriptPath : Str → Except PyExc Str
  processBash : List Str → Str
  processPs : List Str → Str
  azCommand : Str → Except PyExc Str
  extractOutput : Bool → Str → Except PyExc (Str × Str)
  checkScriptSucceeded : Str → Bool
  parseRawLogs : Str → List LogRecord

/-- The parameter string appended to the run command: the OS-appropriate
serialization with every space replaced by `%20` (the run-command workaround,
custom.py line 379). -/
def runParamString (env : RunEnv) (is_linux : Bool) (parameters : List Str) : Str :=
  pyReplaceChar ' ' ("%20".toList)
    (if is_linux then env.processBash parameters else env.processPs parameters)

/-- The az vm run-command invoke command template: group, vm name, command id, driver script. -/
def baseRunCommand (rg vm command_id run_script : Str) : Str :=
  "az vm run-command invoke -g ".toList ++ rg ++ " -n ".toList ++ vm ++
    " --command-id ".toList ++ command_id ++ " --scripts \"@".toList ++ run_script ++
    "\"".toList

/-- The remote-execution command of `run` (custom.py lines 359-380): the base
invoke command, then either the catalog-resolved `script_path` parameter or
the custom-script no-op form, then the serialized parameters when non-empty. -/
def buildRepairRunCommand (env : RunEnv)
    (repair_resource_group repair_vm_name command_id run_script : Str)
    (run_id : Str) (custom_script_file : Option Str) (parameters : List Str)
    (is_linux : Bool) : Except PyExc Str := do
  let base := baseRunCommand repair_resource_group repair_vm_name command_id run_script
  let cmd ←
    match custom_script_file with
    | none => do
        let repair_script ← env.fetchRunScriptPath run_id
        Except.ok (base ++ " --parameters script_path=\"./".toList ++ repair_script ++
          "\"".toList)
    | some custom_file =>
        Except.ok (base ++ " \"@".toList ++ custom_file ++
          "\" --parameters script_path=no-op".toList)
  match parameters with
  | [] => Except.ok cmd
  | _ =>
      Except.ok (cmd ++ " params=\"".toList ++ runParamString env is_linux parameters ++
        "\"".toList)

/-- One iteration of the log-start/log-end loop of `run` (custom.py lines
408-414): any `Log-Start` record clears the truncation flag; a `Log-End`
record whose message splits on `]` into exactly two parts updates the
full-log path. -/
def runLogStep (acc : Bool × Str) (log : LogRecord) : Bool × Str :=
  let cutoff := if log.level = "Log-Start".toList then false else acc.1
  let fullpath :=
    if log.level = "Log-End".toList then
      match pySplitChar ']' log.message with
      | [_, second] => second
      | _ => acc.2
    else acc.2
  (cutoff, fullpath)

/-- The log scan of `run` over the parsed records: the truncation flag starts
true, the full-log path starts empty. -/
def runLogScan (logs : List LogRecord) : Bool × Str :=
  logs.foldl runLogStep (true, [])

/-- Python `s.lower()`. -/
def pyLower (s : Str) : Str := s.map Char.toLower

/-- Join with a newline over the selected log messages. -/
def joinNL (ls : List Str) : Str :=
  List.intercalate [Char.ofNat 10] ls

/-- The body of the try block of `run` (custom.py lines 340-441), producing the
returned mapping on success. -/
def runTry (env : RunEnv) (run_id : Str)
    (custom_script_file : Option Str) (parameters : List Str)
    (run_on_repair : Bool) : Except PyExc ReturnDict := do
  let source_vm ← env.getVm
  let is_linux := source_vm.isLinux
  let run_script :=
    if is_linux then env.rootpath ++ "/scripts/linux-run-driver.sh".toList
    else env.rootpath ++ "/scripts/win-run-driver.ps1".toList
  let command_id :=
    if is_linux then "RunShellScript".toList else "RunPowerShellScript".toList
  let (repair_vm_name, repair_resource_group) ← env.parseRepairVmId
  let repair_run_command ← buildRepairRunCommand env repair_resource_group
    repair_vm_name command_id run_script run_id custom_script_file parameters is_linux
  let return_str ← env.azCommand repair_run_command
  let (stdout, _stderr) ← env.extractOutput is_linux return_str
  let run_script_succeeded := env.checkScriptSucceeded stdout
  let logs := env.parseRawLogs stdout
  let (_log_cutoff, log_fullpath) := runLogScan logs
  let (return_status, message, output) :=
    if run_script_succeeded then
      (STATUS_SUCCESS, "Script completed without error.".toList,
        joinNL ((logs.filter (fun l => pyLower l.level = "output".toList)).map
          (fun l => l.message)))
    else
      (STATUS_ERROR, "Script returned with possible errors.".toList,
        joinNL ((logs.filter (fun l => pyLower l.level = "error".toList)).map
          (fun l => l.message)))
  Except.ok
    [("status".toList, RVal.s return_status),
     ("message".toList, RVal.s message),
     ("logs".toList, RVal.s stdout),
     ("log_full_path".toList, RVal.s log_fullpath),
     ("output".toList, RVal.s output),
     ("vm_name".toList, RVal.s repair_vm_name),
     ("resouce_group".toList, RVal.s repair_resource_group)]

/-- The detail strings of the except clauses of `run`. -/
def runErrorDetail : PyExc → Str
  | PyExc.keyboardInterrupt => "Command interrupted by user input.".toList
  | PyExc.azCommandError m => m
  | PyExc.skuNotAvailableError m => m
  | PyExc.unmanagedDiskCopyError m => m
  | PyExc.windowsOsNotAvailableError => []
  | PyExc.runScriptNotFoundForIdError m => m
  | PyExc.requestException m => m
  | PyExc.otherExc m => m

/-- The messages of the except clauses of `run`. -/
def runErrorMessage : PyExc → Str
  | PyExc.keyboardInterrupt => "Repair run failed. Command interrupted by user input.".toList
  | PyExc.azCommandError _ => "Repair run failed.".toList
  | PyExc.requestException _ =>
      "Failed to fetch run script data from GitHub. Please check this repository is reachable: https://github.com/Azure/repair-script-library".toList
  | PyExc.runScriptNotFoundForIdError _ => "Repair run failed. Run ID not found.".toList
  | _ => "An unexpected error occurred. Try running again with the --debug flag to debug.".toList

/-- What `run` leaves behind: the returned mapping and the caught exception,
if any (`run` performs no cleanup). -/
structure RunOut where
  dict : ReturnDict
  caught : Option PyExc
deriving DecidableEq, Repr

/-- `run` (custom.py lines 323-472).  Everything fallible sits inside the try
block, so `run` always returns a mapping: the try-block result on success, the
`_handle_command_error` mapping otherwise. -/
def run (env : RunEnv) (run_id : Str) (custom_script_file : Option Str)
    (parameters : List Str) (run_on_repair : Bool) : RunOut :=
  match runTry env run_id custom_script_file parameters run_on_repair with
  | Except.ok d => { dict := d, caught := none }
  | Except.error e =>
      { dict := handle_command_error (runErrorDetail e) (runErrorMessage e)
        caught := some e }

/-! ## Helper lemmas -/

theorem ok_bind {α β : Type} (a : α) (f : α → Except PyExc β) :
    (Except.ok a : Except PyExc α) >>= f = f a := rfl

theorem error_bind {α β : Type} (e : PyExc) (f : α → Except PyExc β) :
    (Except.error e : Except PyExc α) >>= f = (Except.error e : Except PyExc β) := rfl

/-- The returned mapping carries a `status` key whose value is `SUCCESS` or
`ERROR`. -/
def statusOk (d : ReturnDict) : Prop :=
  lookupRD ("status".toList) d = some (RVal.s STATUS_SUCCESS) ∨
    lookupRD ("status".toList) d = some (RVal.s STATUS_ERROR)

theorem foldl_runLogStep_fst (logs : List LogRecord) (acc : Bool × Str) :
    (logs.foldl runLogStep acc).1 =
      (acc.1 && !(logs.any (fun l => decide (l.level = "Log-Start".toList)))) := by
  induction logs generalizing acc with
  | nil => simp
  | cons l rest ih =>
      by_cases h : l.level = "Log-Start".toList
      · simp [List.foldl_cons, ih, runLogStep, h]
      · simp [List.foldl_cons, ih, runLogStep, h, Bool.and_assoc, Bool.and_comm,
          Bool.and_left_comm]

theorem pyReplaceChar_not_mem (c : Char) (rep : Str) (s : Str) (hrep : c ∉ rep) :
    c ∉ pyReplaceChar c rep s := by
  induction s with
  | nil => simp [pyReplaceChar]
  | cons a rest ih =>
      by_cases h : a = c
      · intro hmem
        rcases List.mem_append.mp (by simpa [pyReplaceChar, h] using hmem) with h1 | h1
        · exact hrep h1
        · exact ih h1
      · intro hmem
        rcases List.mem_cons.mp (by simpa [pyReplaceChar, h] using hmem) with h1 | h1
        · exact h h1.symm
        · exact ih h1

/-! ## Claims about `run` -/

/-- C6: in `run`, the truncation flag computed by the log scan over the parsed
stdout records is true exactly when no parsed record has level `Log-Start`:
the flag is the negation of "some record has level `Log-Start`". -/
theorem c6_log_cutoff (logs : List LogRecord) :
    (runLogScan logs).1 = !(logs.any (fun l => decide (l.level = "Log-Start".toList))) := by
  simpa using foldl_runLogStep_fst logs (true, [])

/-- C5: in `run`, for a non-empty parameters input, the command built by
`buildRepairRunCommand` ends with the serialized parameter fragment, and that
serialized parameter value contains no space character (every space was
replaced by `%20`). -/
theorem c5_params_no_space (env : RunEnv)
    (g n cid scr run_id : Str) (csf : Option Str) (ps : List Str)
    (is_linux : Bool) (cmd : Str) (hps : ps ≠ [])
    (h : buildRepairRunCommand env g n cid scr run_id csf ps is_linux = Except.ok cmd) :
    List.IsSuffix (" params=\"".toList ++ runParamString env is_linux ps ++ "\"".toList) cmd
      ∧ ' ' ∉ runParamString env is_linux ps := by
  have hnos : ' ' ∉ runParamString env is_linux ps := by
    apply pyReplaceChar_not_mem
    decide
  refine ⟨?_, hnos⟩
  unfold buildRepairRunCommand at h
  cases ps with
  | nil => exact absurd rfl hps
  | cons p0 prest =>
      cases csf with
      | none =>
          cases hf : env.fetchRunScriptPath run_id with
          | error e => rw [hf] at h; simp [error_bind] at h
          | ok sp =>
              rw [hf] at h
              simp only [ok_bind, Except.ok.injEq] at h
              refine ⟨baseRunCommand g n cid scr ++ " --parameters script_path=\"./".toList
                ++ sp ++ "\"".toList, ?_⟩
              rw [← h]
              simp [List.append_assoc]
      | some f =>
          simp only [ok_bind, Except.ok.injEq] at h
          refine ⟨baseRunCommand g n cid scr ++ " \"@".toList ++ f ++
            "\" --parameters script_path=no-op".toList, ?_⟩
          rw [← h]
          simp [List.append_assoc]

/-- C7: in `run` without a custom script file, when the remote catalog resolves
run id `42` to `scripts/diag.sh`, the constructed remote-execution command
contains the fragment `script_path="./scripts/diag.sh"`. -/
theorem c7_script_path (env : RunEnv) (g n cid scr : Str) (ps : List Str)
    (is_linux : Bool) (cmd : Str)
    (hcat : env.fetchRunScriptPath ("42".toList) = Except.ok ("scripts/diag.sh".toList))
    (h : buildRepairRunCommand env g n cid scr ("42".toList) none ps is_linux
        = Except.ok cmd) :
    List.IsInfix ("script_path=\"./scripts/diag.sh\"".toList) cmd := by
  unfold buildRepairRunCommand at h
  rw [hcat] at h
  cases ps with
  | nil =>
      simp only [ok_bind, Except.ok.injEq] at h
      refine ⟨baseRunCommand g n cid scr ++ " --parameters ".toList, [], ?_⟩
      rw [← h]
      simp [List.append_assoc]
  | cons p0 prest =>
      simp only [ok_bind, Except.ok.injEq] at h
      refine ⟨baseRunCommand g n cid scr ++ " --parameters ".toList,
        " params=\"".toList ++ runParamString env is_linux (p0 :: prest) ++ "\"".toList, ?_⟩
      rw [← h]
      simp [List.append_assoc]

theorem runTry_status (env : RunEnv) (run_id : Str) (csf : Option Str)
    (ps : List Str) (ror : Bool) (d : ReturnDict)
    (h : runTry env run_id csf ps ror = Except.ok d) : statusOk d := by
  unfold runTry at h
  cases h1 : env.getVm with
  | error e => rw [h1] at h; simp [error_bind] at h
  | ok vm =>
      rw [h1] at h
      simp only [ok_bind] at h
      cases h2 : env.parseRepairVmId with
      | error e => rw [h2] at h; simp [error_bind] at h
      | ok pr =>
          rw [h2] at h
          obtain ⟨rvn, rrg⟩ := pr
          simp only [ok_bind] at h
          cases h3 : buildRepairRunCommand env rrg rvn
              (if vm.isLinux then "RunShellScript".toList else "RunPowerShellScript".toList)
              (if vm.isLinux then env.rootpath ++ "/scripts/linux-run-driver.sh".toList
                else env.rootpath ++ "/scripts/win-run-driver.ps1".toList)
              run_id csf ps vm.isLinux with
          | error e => rw [h3] at h; simp [error_bind] at h
          | ok cmd =>
              rw [h3] at h
              simp only [ok_bind] at h
              cases h4 : env.azCommand cmd with
              | error e => rw [h4] at h; simp [error_bind] at h
              | ok ret =>
                  rw [h4] at h
                  simp only [ok_bind] at h
                  cases h5 : env.extractOutput vm.isLinux ret with
                  | error e => rw [h5] at h; simp [error_bind] at h
                  | ok p =>
                      rw [h5] at h
                      obtain ⟨stdout, stderr⟩ := p
                      simp only [ok_bind] at h
                      cases h6 : env.checkScriptSucceeded stdout with
                      | true =>
                          rw [h6] at h
                          simp only [if_true, Except.ok.injEq] at h
                          subst h
                          left
                          simp [statusOk, lookupRD]
                      | false =>
                          rw [h6] at h
                          simp only [Bool.false_eq_true, if_false, Except.ok.injEq] at h
                          subst h
                          right
                          simp [statusOk, lookupRD]

/-- C1 (amended): whenever an invocation of `create` or `restore` returns at
all (the pre-try source-VM query, and for `restore` the repair-VM-id parsing,
succeeded), and on every invocation of `run` unconditionally, the returned
mapping contains a `status` key whose value is `SUCCESS` or `ERROR`. -/
theorem c1_status_always (cenv : CreateEnv) (renv : RestoreEnv) (uenv : RunEnv)
    (a1 a2 a3 a4 a5 a6 a7 b1 b2 b3 r1 : Str) (byes ror : Bool)
    (rcs : Option Str) (rps : List Str) (cres : CmdResult) (rout : RestoreOut)
    (hc : create cenv a1 a2 a3 a4 a5 a6 a7 = Except.ok cres)
    (hr : restore renv b1 b2 b3 byes = Except.ok rout) :
    statusOk cres.dict ∧ statusOk rout.dict ∧ statusOk (run uenv r1 rcs rps ror).dict := by
  refine ⟨?_, ?_, ?_⟩
  · unfold create at hc
    cases h1 : cenv.getVm with
    | error e => rw [h1] at hc; simp [error_bind] at hc
    | ok vm =>
        rw [h1] at hc
        simp only [ok_bind] at hc
        cases h2 : createTry cenv a2 a3 a4 a5 a6 a7 vm cenv.resourceTag with
        | error e =>
            rw [h2] at hc
            simp only [Except.ok.injEq] at hc
            subst hc
            right
            simp [handle_command_error, lookupRD]
        | ok triple =>
            rw [h2] at hc
            obtain ⟨cid, cdn, crs⟩ := triple
            simp only [Except.ok.injEq] at hc
            subst hc
            left
            simp [lookupRD]
  · unfold restore at hr
    cases h1 : renv.getVm with
    | error e => rw [h1] at hr; simp [error_bind] at hr
    | ok vm =>
        rw [h1] at hr
        simp only [ok_bind] at hr
        cases h2 : renv.parseRepairVmId with
        | error e => rw [h2] at hr; simp [error_bind] at hr
        | ok pr =>
            rw [h2] at hr
            obtain ⟨rvn, rrg⟩ := pr
            simp only [ok_bind] at hr
            rcases h3 : restoreTry renv b1 b2 b3 rvn rrg byes vm with ⟨exc, cmds, cls⟩
            cases exc with
            | error e =>
                rw [h3] at hr
                simp only [Except.ok.injEq] at hr
                subst hr
                right
                simp [handle_command_error, lookupRD]
            | ok sd =>
                rw [h3] at hr
                simp only [Except.ok.injEq] at hr
                subst hr
                left
                simp [lookupRD]
  · unfold run
    cases h1 : runTry uenv r1 rcs rps ror with
    | error e =>
        right
        simp [handle_command_error, lookupRD]
    | ok d =>
        exact runTry_status uenv r1 rcs rps ror d h1

/-- A managed-disk Linux source VM used by concrete test environments. -/
def vmMan : VM :=
  { isLinux := true
    location := "westus".toList
    osDiskName := "osdisk".toList
    osDiskManagedSku := some ("Premium_LRS".toList)
    osDiskVhdUri := []
    usesManagedDisk := true }

/-- An unmanaged-disk Linux source VM used by concrete test environments. -/
def vmUnman : VM :=
  { isLinux := true
    location := "westus".toList
    osDiskName := "osdisk".toList
    osDiskManagedSku := none
    osDiskVhdUri := "https://acct.blob.core.windows.net/vhds/osdisk.vhd".toList
    usesManagedDisk := false }

/-- A `create` environment whose initial source-VM query raises. -/
def c1BadEnv : CreateEnv :=
  { getVm := Except.error (PyExc.otherExc ("vm query failed".toList))
    resourceTag := "tag".toList
    fetchWindowsOsUrn := Except.ok []
    fetchCompatibleSku := Except.ok (some ("Standard_D2".toList))
    fetchDiskSku := Except.ok []
    azCommand := fun _ => Except.ok []
    listResourceIdsInRg := fun _ => []
    storageAccount := fun _ => ([], [], []) }

/-- C1 (counterexample): on a `create` invocation whose initial source-VM
query raises, the exception propagates to the caller and no mapping (hence no
`status` key) is returned, because that query sits before the try block. -/
theorem c1_counterexample :
    create c1BadEnv ("vm1".toList) ("rg1".toList) ("pw".toList) ("user".toList)
        ("repair1".toList) ("disk1".toList) ("repairRG".toList)
      = Except.error (PyExc.otherExc ("vm query failed".toList)) := rfl

/-- A `create` environment that fails at the resource-group az command. -/
def c1CreateEnvW : CreateEnv :=
  { getVm := Except.ok vmMan
    resourceTag := "tag".toList
    fetchWindowsOsUrn := Except.ok []
    fetchCompatibleSku := Except.ok (some ("Standard_D2".toList))
    fetchDiskSku := Except.ok []
    azCommand := fun _ => Except.error (PyExc.azCommandError ("boom".toList))
    listResourceIdsInRg := fun _ => []
    storageAccount := fun _ => ([], [], []) }

/-- A `restore` environment that fails at the detach az command. -/
def c1RestoreEnvW : RestoreEnv :=
  { getVm := Except.ok vmMan
    parseRepairVmId := Except.ok ("repair1".toList, "repairRG".toList)
    getRepairVm := Except.ok []
    azCommand := fun _ => Except.error (PyExc.otherExc ("boom".toList))
    cachedIsManaged := false }

/-- A `run` environment in which every collaborator succeeds. -/
def c1RunEnvW : RunEnv :=
  { getVm := Except.ok vmMan
    parseRepairVmId := Except.ok ("repair1".toList, "repairRG".toList)
    rootpath := "/ext".toList
    fetchRunScriptPath := fun _ => Except.ok ("scripts/diag.sh".toList)
    processBash := fun _ => "k=v w".toList
    processPs := fun _ => "k v".toList
    azCommand := fun _ => Except.ok ("raw".toList)
    extractOutput := fun _ _ => Except.ok ("stdout text".toList, [])
    checkScriptSucceeded := fun _ => true
    parseRawLogs := fun _ => [] }

def c1CresW : CmdResult :=
  (create c1CreateEnvW ("vm1".toList) ("rg1".toList) ("pw".toList) ("user".toList)
    ("repair1".toList) ("disk1".toList) ("repairRG".toList)).toOption.getD
    { dict := [], cleanups := [], caught := none }

def c1RoutW : RestoreOut :=
  (restore c1RestoreEnvW ("vm1".toList) ("rg1".toList) ("disk1".toList) false).toOption.getD
    { dict := [], cmds := [], cleanups := [], managedBranch := false, caught := none }

theorem c1_witness :
    statusOk c1CresW.dict ∧ statusOk c1RoutW.dict ∧
      statusOk (run c1RunEnvW ("42".toList) none [] false).dict :=
  c1_status_always c1CreateEnvW c1RestoreEnvW c1RunEnvW
    ("vm1".toList) ("rg1".toList) ("pw".toList) ("user".toList) ("repair1".toList)
    ("disk1".toList) ("repairRG".toList) ("vm1".toList) ("rg1".toList) ("disk1".toList)
    ("42".toList) false false none [] c1CresW c1RoutW rfl rfl

/-- C3: in `create` on the managed-disk path, when the disk-copy command fails
with an external-command error, the whole invocation returns an ERROR mapping
and best-effort, non-interactive cleanup of the repair resource group is
invoked exactly once (the `cleanups` trace is the one-element list). -/
theorem c3_managed_copy_cleanup (env : CreateEnv) (vm : VM)
    (a1 a2 a3 a4 a5 a6 a7 urn sku dsku o1 o2 m : Str)
    (hvm : env.getVm = Except.ok vm)
    (hman : vm.usesManagedDisk = true)
    (hurn : osImageUrn env vm = Except.ok urn)
    (hsku : env.fetchCompatibleSku = Except.ok (some sku))
    (hrg : env.azCommand (createResourceGroupCommand vm.location a7) = Except.ok o1)
    (hdsku : resolveDiskSku env vm = Except.ok dsku)
    (hval : env.azCommand
        (fullCreateVmCommand a7 a5 env.resourceTag urn a3 a4 vm.isLinux sku ++
          " --validate".toList) = Except.ok o2)
    (hcopy : env.azCommand (copyDiskCommand a2 a6 vm.osDiskName dsku vm.location)
        = Except.error (PyExc.azCommandError m)) :
    create env a1 a2 a3 a4 a5 a6 a7 = Except.ok
      { dict := handle_command_error m
          ("Repair create failed. Cleaning up created resources.".toList)
        cleanups := [(a7, false)]
        caught := some (PyExc.azCommandError m) } := by
  unfold create createTry
  rw [hvm]
  simp only [ok_bind, hurn, hsku, hrg, hdsku, hval, hcopy, hman, error_bind,
    if_true, createErrorDetail, createErrorMessage]

/-- A `create` environment on the managed path whose disk-copy command fails
and every other command succeeds. -/
def c3EnvW : CreateEnv :=
  { getVm := Except.ok vmMan
    resourceTag := "tag".toList
    fetchWindowsOsUrn := Except.ok []
    fetchCompatibleSku := Except.ok (some ("Standard_D2".toList))
    fetchDiskSku := Except.ok []
    azCommand := fun c =>
      if c = copyDiskCommand ("rg1".toList) ("disk1".toList) vmMan.osDiskName
          ("Premium_LRS".toList) vmMan.location then
        Except.error (PyExc.azCommandError ("copy failed".toList))
      else Except.ok ("ok".toList)
    listResourceIdsInRg := fun _ => []
    storageAccount := fun _ => ([], [], []) }

theorem c3_witness :
    create c3EnvW ("vm1".toList) ("rg1".toList) ("pw".toList) ("user".toList)
        ("repair1".toList) ("disk1".toList) ("repairRG".toList)
      = Except.ok
        { dict := handle_command_error ("copy failed".toList)
            ("Repair create failed. Cleaning up created resources.".toList)
          cleanups := [("repairRG".toList, false)]
          caught := some (PyExc.azCommandError ("copy failed".toList)) } :=
  c3_managed_copy_cleanup c3EnvW vmMan ("vm1".toList) ("rg1".toList) ("pw".toList)
    ("user".toList) ("repair1".toList) ("disk1".toList) ("repairRG".toList)
    ("UbuntuLTS".toList) ("Standard_D2".toList) ("Premium_LRS".toList)
    ("ok".toList) ("ok".toList) ("copy failed".toList)
    rfl rfl rfl rfl rfl rfl rfl rfl

/-- C2: in `create` on the unmanaged-disk path, when every command up to and
including the repair-VM creation succeeds but the single poll of the blob copy
status returns anything other than `success`, the `UnmanagedDiskCopyError` is
raised and caught, the returned mapping has status ERROR, and best-effort
cleanup of the repair resource group is invoked. -/
theorem c2_unmanaged_poll (env : CreateEnv) (vm : VM)
    (a1 a2 a3 a4 a5 a6 a7 urn sku acct cont blob o1 o2 o3 o4 o5 o6 s : Str)
    (hvm : env.getVm = Except.ok vm)
    (hunman : vm.usesManagedDisk = false)
    (hurn : osImageUrn env vm = Except.ok urn)
    (hsku : env.fetchCompatibleSku = Except.ok (some sku))
    (hsa : env.storageAccount vm.osDiskVhdUri = (acct, cont, blob))
    (hrg : env.azCommand (createResourceGroupCommand vm.location a7) = Except.ok o1)
    (hval : env.azCommand
        (fullCreateVmCommand a7 a5 env.resourceTag urn a3 a4 vm.isLinux sku ++
          " --validate".toList) = Except.ok o2)
    (hconn : env.azCommand (connectionStringCommand a2 acct) = Except.ok o3)
    (hsnap : env.azCommand (makeSnapshotCommand cont blob (stripNL o3)) = Except.ok o4)
    (hcopy : env.azCommand (copySnapshotCommand cont (a6 ++ ".vhd".toList)
        (vm.osDiskVhdUri ++ "?snapshot=".toList ++ stripNL o4) (stripNL o3))
        = Except.ok o5)
    (hmk : env.azCommand
        (fullCreateVmCommand a7 a5 env.resourceTag urn a3 a4 vm.isLinux sku ++
          " --use-unmanaged-disk".toList) = Except.ok o6)
    (hchk : env.azCommand (copyCheckCommand cont (a6 ++ ".vhd".toList) (stripNL o3))
        = Except.ok s)
    (hne : stripNL s ≠ "success".toList) :
    create env a1 a2 a3 a4 a5 a6 a7 = Except.ok
      { dict := handle_command_error ("Unmanaged disk copy failed.".toList)
          ("Repair create failed. Please try again at another time. Cleaning up created resources.".toList)
        cleanups := [(a7, false)]
        caught := some (PyExc.unmanagedDiskCopyError ("Unmanaged disk copy failed.".toList)) } := by
  unfold create createTry
  rw [hvm]
  simp only [ok_bind, hurn, hsku, hunman, Bool.false_eq_true, if_false, hsa, hrg, hval,
    hconn, hsnap, hcopy, hmk, hchk, error_bind, ne_eq, hne, not_false_eq_true, if_true,
    createErrorDetail, createErrorMessage]

/-- A `create` environment on the unmanaged path whose copy-status poll
reports `pending` while every command succeeds. -/
def c2EnvW : CreateEnv :=
  { getVm := Except.ok vmUnman
    resourceTag := "tag".toList
    fetchWindowsOsUrn := Except.ok []
    fetchCompatibleSku := Except.ok (some ("Standard_D2".toList))
    fetchDiskSku := Except.ok []
    azCommand := fun c =>
      if c = copyCheckCommand ("vhds".toList) ("disk1.vhd".toList) ("cs".toList) then
        Except.ok ("pending".toList)
      else Except.ok ("cs".toList)
    listResourceIdsInRg := fun _ => []
    storageAccount := fun _ => ("acct".toList, "vhds".toList, "osdisk.vhd".toList) }

theorem c2_witness :
    create c2EnvW ("vm1".toList) ("rg1".toList) ("pw".toList) ("user".toList)
        ("repair1".toList) ("disk1".toList) ("repairRG".toList)
      = Except.ok
        { dict := handle_command_error ("Unmanaged disk copy failed.".toList)
            ("Repair create failed. Please try again at another time. Cleaning up created resources.".toList)
          cleanups := [("repairRG".toList, false)]
          caught := some (PyExc.unmanagedDiskCopyError ("Unmanaged disk copy failed.".toList)) } :=
  c2_unmanaged_poll c2EnvW vmUnman ("vm1".toList) ("rg1".toList) ("pw".toList)
    ("user".toList) ("repair1".toList) ("disk1".toList) ("repairRG".toList)
    ("UbuntuLTS".toList) ("Standard_D2".toList) ("acct".toList) ("vhds".toList)
    ("osdisk.vhd".toList) ("cs".toList) ("cs".toList) ("cs".toList) ("cs".toList)
    ("cs".toList) ("cs".toList) ("pending".toList)
    rfl rfl rfl rfl rfl rfl rfl rfl rfl rfl rfl rfl (by decide)

theorem createTry_resources (env : CreateEnv) (a2 a3 a4 a5 a6 a7 : Str) (vm : VM)
    (tag cid cdn : Str) (crs : List Str)
    (h : createTry env a2 a3 a4 a5 a6 a7 vm tag = Except.ok (cid, cdn, crs)) :
    crs = env.listResourceIdsInRg a7 := by
  unfold createTry at h
  simp only [bind, Except.bind] at h
  repeat' split at h
  all_goals simp_all

/-- A `create` environment on the managed path in which every command succeeds
and the repair resource group enumerates to the empty list. -/
def c8EnvW : CreateEnv :=
  { getVm := Except.ok vmMan
    resourceTag := "tag".toList
    fetchWindowsOsUrn := Except.ok []
    fetchCompatibleSku := Except.ok (some ("Standard_D2".toList))
    fetchDiskSku := Except.ok []
    azCommand := fun c =>
      if c = copyDiskCommand ("rg1".toList) ("disk1".toList) vmMan.osDiskName
          ("Premium_LRS".toList) vmMan.location then
        Except.ok ("disk1-id-in-rg1".toList)
      else Except.ok ("ok".toList)
    listResourceIdsInRg := fun _ => []
    storageAccount := fun _ => ([], [], []) }

def c8ResW : CmdResult :=
  (create c8EnvW ("vm1".toList) ("rg1".toList) ("pw".toList) ("user".toList)
    ("repair1".toList) ("disk1".toList) ("repairRG".toList)).toOption.getD
    { dict := [], cleanups := [], caught := none }

/-- C8 (counterexample): a successful `create` whose repair resource group
enumerates to the empty list still reports a one-element `created_resources`
list — the copied-disk identifier, a disk created in the original resource
group — so the reported list is not exactly the resources created in the
repair resource group. -/
theorem c8_counterexample :
    c8ResW.caught = none ∧
      lookupRD ("status".toList) c8ResW.dict = some (RVal.s STATUS_SUCCESS) ∧
      c8EnvW.listResourceIdsInRg ("repairRG".toList) = [] ∧
      lookupRD ("created_resources".toList) c8ResW.dict
        = some (RVal.l [("disk1-id-in-rg1".toList)]) ∧
      lookupRD ("created_resources".toList) c8ResW.dict
        ≠ some (RVal.l (c8EnvW.listResourceIdsInRg ("repairRG".toList))) := by
  refine ⟨rfl, rfl, rfl, rfl, ?_⟩
  decide

/-- C8 (amended): on every successful execution of `create`, the returned
mapping carries status SUCCESS, a message, the repair VM name, the copied-disk
name and URI, the repair resource group, the resource tag, and a
`created_resources` list that enumerates the resources of the repair resource
group followed by the copied-disk identifier (which itself lives in the
original resource group). -/
theorem c8_success_fields (env : CreateEnv) (a1 a2 a3 a4 a5 a6 a7 : Str)
    (res : CmdResult)
    (hc : create env a1 a2 a3 a4 a5 a6 a7 = Except.ok res)
    (hsucc : res.caught = none) :
    lookupRD ("status".toList) res.dict = some (RVal.s STATUS_SUCCESS) ∧
      (∃ m, lookupRD ("message".toList) res.dict = some (RVal.s m)) ∧
      lookupRD ("repair_vm_name".toList) res.dict = some (RVal.s a5) ∧
      (∃ cid cdn,
        lookupRD ("copied_disk_name".toList) res.dict = some (RVal.s cdn) ∧
        lookupRD ("copied_disk_uri".toList) res.dict = some (RVal.s cid) ∧
        lookupRD ("created_resources".toList) res.dict
          = some (RVal.l (env.listResourceIdsInRg a7 ++ [cid]))) ∧
      lookupRD ("repair_resouce_group".toList) res.dict = some (RVal.s a7) ∧
      lookupRD ("resource_tag".toList) res.dict = some (RVal.s env.resourceTag) := by
  unfold create at hc
  cases h1 : env.getVm with
  | error e => rw [h1] at hc; simp [error_bind] at hc
  | ok vm =>
      rw [h1] at hc
      simp only [ok_bind] at hc
      cases h2 : createTry env a2 a3 a4 a5 a6 a7 vm env.resourceTag with
      | error e =>
          rw [h2] at hc
          simp only [Except.ok.injEq] at hc
          subst hc
          simp at hsucc
      | ok triple =>
          rw [h2] at hc
          obtain ⟨cid, cdn, crs⟩ := triple
          have hcrs := createTry_resources env a2 a3 a4 a5 a6 a7 vm env.resourceTag
            cid cdn crs h2
          simp only [Except.ok.injEq] at hc
          subst hc
          subst hcrs
          refine ⟨rfl, ⟨_, rfl⟩, rfl, ⟨cid, cdn, rfl, rfl, rfl⟩, rfl, rfl⟩

/-- A successful managed-path result used to instantiate `c8_success_fields`. -/
def c8SuccEnvW : CreateEnv :=
  { getVm := Except.ok vmMan
    resourceTag := "tag".toList
    fetchWindowsOsUrn := Except.ok []
    fetchCompatibleSku := Except.ok (some ("Standard_D2".toList))
    fetchDiskSku := Except.ok []
    azCommand := fun _ => Except.ok ("disk1-id-in-rg1".toList)
    listResourceIdsInRg := fun g => [g ++ "/vm-resource".toList]
    storageAccount := fun _ => ([], [], []) }

def c8SuccResW : CmdResult :=
  (create c8SuccEnvW ("vm1".toList) ("rg1".toList) ("pw".toList) ("user".toList)
    ("repair1".toList) ("disk1".toList) ("repairRG".toList)).toOption.getD
    { dict := [], cleanups := [], caught := none }

theorem c8_witness :
    lookupRD ("status".toList) c8SuccResW.dict = some (RVal.s STATUS_SUCCESS) ∧
      (∃ m, lookupRD ("message".toList) c8SuccResW.dict = some (RVal.s m)) ∧
      lookupRD ("repair_vm_name".toList) c8SuccResW.dict
        = some (RVal.s ("repair1".toList)) ∧
      (∃ cid cdn,
        lookupRD ("copied_disk_name".toList) c8SuccResW.dict = some (RVal.s cdn) ∧
        lookupRD ("copied_disk_uri".toList) c8SuccResW.dict = some (RVal.s cid) ∧
        lookupRD ("created_resources".toList) c8SuccResW.dict
          = some (RVal.l (c8SuccEnvW.listResourceIdsInRg ("repairRG".toList) ++ [cid]))) ∧
      lookupRD ("repair_resouce_group".toList) c8SuccResW.dict
        = some (RVal.s ("repairRG".toList)) ∧
      lookupRD ("resource_tag".toList) c8SuccResW.dict
        = some (RVal.s c8SuccEnvW.resourceTag) :=
  c8_success_fields c8SuccEnvW ("vm1".toList) ("rg1".toList) ("pw".toList)
    ("user".toList) ("repair1".toList) ("disk1".toList) ("repairRG".toList)
    c8SuccResW rfl rfl

theorem dropWhile_append_all {α : Type} (p : α → Bool) (l1 l2 : List α)
    (h : ∀ a ∈ l1, p a = true) :
    (l1 ++ l2).dropWhile p = l2.dropWhile p := by
  induction l1 with
  | nil => simp
  | cons a t ih =>
      rw [List.cons_append, List.dropWhile_cons_of_pos (h a (List.mem_cons_self a t))]
      exact ih (fun b hb => h b (List.mem_cons_of_mem a hb))

/-- Python `rstrip` strips character-set-wise, so on a string of the form
`q ++ [sep] ++ blob` where `sep` is outside the character set of `blob` it removes
exactly the trailing `blob`. -/
theorem pyRstrip_sep_append (q blob : Str) (sep : Char) (hsep : sep ∉ blob) :
    pyRstrip ((q ++ [sep]) ++ blob) blob = q ++ [sep] := by
  unfold pyRstrip
  rw [List.reverse_append, List.reverse_append]
  rw [dropWhile_append_all _ blob.reverse _
    (fun a ha => by simpa using List.mem_reverse.mp ha)]
  rw [List.reverse_singleton, List.singleton_append,
    List.dropWhile_cons_of_neg (by simpa using hsep)]
  simp

/-- C10 (amended): in `create` on the unmanaged-disk path, on a successful
execution the reported `copied_disk_name` is the caller-supplied copy-disk
name with `.vhd` appended, and, provided the character preceding the blob name
in the source OS-disk URI lies outside the character set of the blob name (as
holds whenever the blob name contains no slash), the reported
`copied_disk_uri` is the source OS-disk URI with its blob name replaced by
that suffixed name; neither reported value equals the caller-supplied name
verbatim.  Without that proviso the set-wise rstrip can strip past the blob
name, as the counterexample shows. -/
theorem c10_unmanaged_reported_names (env : CreateEnv) (vm : VM)
    (a1 a2 a3 a4 a5 a6 a7 urn sku acct cont blob q o1 o2 o3 o4 o5 o6 s o7 : Str)
    (sep : Char)
    (hvm : env.getVm = Except.ok vm)
    (hunman : vm.usesManagedDisk = false)
    (hurn : osImageUrn env vm = Except.ok urn)
    (hsku : env.fetchCompatibleSku = Except.ok (some sku))
    (hsa : env.storageAccount vm.osDiskVhdUri = (acct, cont, blob))
    (huri : vm.osDiskVhdUri = (q ++ [sep]) ++ blob)
    (hsep : sep ∉ blob)
    (hrg : env.azCommand (createResourceGroupCommand vm.location a7) = Except.ok o1)
    (hval : env.azCommand
        (fullCreateVmCommand a7 a5 env.resourceTag urn a3 a4 vm.isLinux sku ++
          " --validate".toList) = Except.ok o2)
    (hconn : env.azCommand (connectionStringCommand a2 acct) = Except.ok o3)
    (hsnap : env.azCommand (makeSnapshotCommand cont blob (stripNL o3)) = Except.ok o4)
    (hcopy : env.azCommand (copySnapshotCommand cont (a6 ++ ".vhd".toList)
        (vm.osDiskVhdUri ++ "?snapshot=".toList ++ stripNL o4) (stripNL o3))
        = Except.ok o5)
    (hmk : env.azCommand
        (fullCreateVmCommand a7 a5 env.resourceTag urn a3 a4 vm.isLinux sku ++
          " --use-unmanaged-disk".toList) = Except.ok o6)
    (hchk : env.azCommand (copyCheckCommand cont (a6 ++ ".vhd".toList) (stripNL o3))
        = Except.ok s)
    (hs : stripNL s = "success".toList)
    (hatt : env.azCommand (attachUnmanagedCommand a7 (a6 ++ ".vhd".toList) a5
        ((q ++ [sep]) ++ (a6 ++ ".vhd".toList))) = Except.ok o7) :
    ∃ res, create env a1 a2 a3 a4 a5 a6 a7 = Except.ok res ∧ res.caught = none ∧
      lookupRD ("copied_disk_name".toList) res.dict
        = some (RVal.s (a6 ++ ".vhd".toList)) ∧
      lookupRD ("copied_disk_uri".toList) res.dict
        = some (RVal.s ((q ++ [sep]) ++ (a6 ++ ".vhd".toList))) ∧
      a6 ++ ".vhd".toList ≠ a6 ∧
      (q ++ [sep]) ++ (a6 ++ ".vhd".toList) ≠ a6 := by
  have hcid : pyRstrip vm.osDiskVhdUri blob = q ++ [sep] := by
    rw [huri]
    exact pyRstrip_sep_append q blob sep hsep
  unfold create createTry
  rw [hvm]
  simp only [ok_bind, hurn, hsku, hunman, Bool.false_eq_true, if_false, hsa, hrg, hval,
    hconn, hsnap, hcopy, hcid, hmk, hchk, hs, ne_eq, eq_self_iff_true, not_true_eq_false,
    if_false, hatt, error_bind]
  refine ⟨_, rfl, rfl, rfl, rfl, ?_, ?_⟩
  · intro heq
    have h := congrArg List.length heq
    simp only [List.length_append] at h
    have h4 : (".vhd".toList).length = 4 := rfl
    rw [h4] at h
    omega
  · intro heq
    have h := congrArg List.length heq
    simp only [List.length_append, List.length_singleton] at h
    have h4 : (".vhd".toList).length = 4 := rfl
    rw [h4] at h
    omega

/-- A fully successful unmanaged-path `create` environment whose copy-status
poll reports `success`. -/
def c10EnvW : CreateEnv :=
  { getVm := Except.ok vmUnman
    resourceTag := "tag".toList
    fetchWindowsOsUrn := Except.ok []
    fetchCompatibleSku := Except.ok (some ("Standard_D2".toList))
    fetchDiskSku := Except.ok []
    azCommand := fun c =>
      if c = copyCheckCommand ("vhds".toList) ("disk1.vhd".toList) ("cs".toList) then
        Except.ok ("success".toList)
      else Except.ok ("cs".toList)
    listResourceIdsInRg := fun _ => []
    storageAccount := fun _ => ("acct".toList, "vhds".toList, "osdisk.vhd".toList) }

theorem c10_witness :
    ∃ res, create c10EnvW ("vm1".toList) ("rg1".toList) ("pw".toList) ("user".toList)
        ("repair1".toList) ("disk1".toList) ("repairRG".toList) = Except.ok res ∧
      res.caught = none ∧
      lookupRD ("copied_disk_name".toList) res.dict
        = some (RVal.s ("disk1".toList ++ ".vhd".toList)) ∧
      lookupRD ("copied_disk_uri".toList) res.dict
        = some (RVal.s (("https://acct.blob.core.windows.net/vhds".toList ++ ['/']) ++
            ("disk1".toList ++ ".vhd".toList))) ∧
      "disk1".toList ++ ".vhd".toList ≠ "disk1".toList ∧
      ("https://acct.blob.core.windows.net/vhds".toList ++ ['/']) ++
          ("disk1".toList ++ ".vhd".toList) ≠ "disk1".toList :=
  c10_unmanaged_reported_names c10EnvW vmUnman ("vm1".toList) ("rg1".toList)
    ("pw".toList) ("user".toList) ("repair1".toList) ("disk1".toList)
    ("repairRG".toList) ("UbuntuLTS".toList) ("Standard_D2".toList) ("acct".toList)
    ("vhds".toList) ("osdisk.vhd".toList)
    ("https://acct.blob.core.windows.net/vhds".toList)
    ("cs".toList) ("cs".toList) ("cs".toList) ("cs".toList) ("cs".toList)
    ("cs".toList) ("success".toList) ("cs".toList) '/'
    rfl rfl rfl rfl rfl (by decide) (by decide) rfl rfl rfl rfl rfl rfl rfl rfl rfl

/-- An unmanaged-disk Linux source VM whose blob name contains a slash (a
nested blob path), so the character set of the blob name contains the URI
separator. -/
def vmUnmanNested : VM :=
  { isLinux := true
    location := "westus".toList
    osDiskName := "osdisk".toList
    osDiskManagedSku := none
    osDiskVhdUri := "https://acct.blob.core.windows.net/c/dir/os.vhd".toList
    usesManagedDisk := false }

/-- A fully successful unmanaged-path `create` environment whose source blob
name is the nested path dir/os.vhd inside container c. -/
def c10BadEnvW : CreateEnv :=
  { getVm := Except.ok vmUnmanNested
    resourceTag := "tag".toList
    fetchWindowsOsUrn := Except.ok []
    fetchCompatibleSku := Except.ok (some ("Standard_D2".toList))
    fetchDiskSku := Except.ok []
    azCommand := fun c =>
      if c = copyCheckCommand ("c".toList) ("disk1.vhd".toList) ("cs".toList) then
        Except.ok ("success".toList)
      else Except.ok ("cs".toList)
    listResourceIdsInRg := fun _ => []
    storageAccount := fun _ => ("acct".toList, "c".toList, "dir/os.vhd".toList) }

def c10BadResW : CmdResult :=
  (create c10BadEnvW ("vm1".toList) ("rg1".toList) ("pw".toList) ("user".toList)
    ("repair1".toList) ("disk1".toList) ("repairRG".toList)).toOption.getD
    { dict := [], cleanups := [], caught := none }

/-- C10 (counterexample): on a successful unmanaged-path `create` whose source
OS-disk URI ends in the nested blob name dir/os.vhd, the set-wise rstrip of
line 154 strips past the blob name (through both slashes, up to the container
letter c), so the reported `copied_disk_uri` ends in cdisk1.vhd and is not the
source URI with its blob name replaced by the suffixed copy name, which would
end in c/disk1.vhd; the claim as stated is false at this input. -/
theorem c10_counterexample :
    create c10BadEnvW ("vm1".toList) ("rg1".toList) ("pw".toList) ("user".toList)
        ("repair1".toList) ("disk1".toList) ("repairRG".toList)
      = Except.ok c10BadResW ∧
    c10BadResW.caught = none ∧
    lookupRD ("copied_disk_name".toList) c10BadResW.dict
      = some (RVal.s ("disk1.vhd".toList)) ∧
    lookupRD ("copied_disk_uri".toList) c10BadResW.dict
      = some (RVal.s ("https://acct.blob.core.windows.net/cdisk1.vhd".toList)) ∧
    lookupRD ("copied_disk_uri".toList) c10BadResW.dict
      ≠ some (RVal.s ("https://acct.blob.core.windows.net/c/disk1.vhd".toList)) :=
  ⟨rfl, rfl, rfl, by decide, by decide⟩

theorem detachAttachClean_cleanups (env : RestoreEnv) (rrg : Str) (yes : Bool)
    (dc ac sd : Str) (r : Except PyExc Str) (cmds : List Str)
    (cls : List (Str × Bool))
    (h : detachAttachClean env rrg yes dc ac sd = (r, cmds, cls)) :
    cls = if r.isOk then [(rrg, !yes)] else [] := by
  unfold detachAttachClean at h
  cases h1 : env.azCommand dc with
  | error e =>
      rw [h1] at h
      simp only [Prod.mk.injEq] at h
      obtain ⟨hr, _, hcls⟩ := h
      subst hr
      subst hcls
      rfl
  | ok o =>
      rw [h1] at h
      cases h2 : env.azCommand ac with
      | error e =>
          rw [h2] at h
          simp only [Prod.mk.injEq] at h
          obtain ⟨hr, _, hcls⟩ := h
          subst hr
          subst hcls
          rfl
      | ok o2 =>
          rw [h2] at h
          simp only [Prod.mk.injEq] at h
          obtain ⟨hr, _, hcls⟩ := h
          subst hr
          subst hcls
          rfl

theorem restoreTry_cleanups (env : RestoreEnv) (b1 b2 b3 rvn rrg : Str) (yes : Bool)
    (vm : VM) (r : Except PyExc Str) (cmds : List Str) (cls : List (Str × Bool))
    (h : restoreTry env b1 b2 b3 rvn rrg yes vm = (r, cmds, cls)) :
    cls = if r.isOk then [(rrg, !yes)] else [] := by
  unfold restoreTry at h
  split at h
  · exact detachAttachClean_cleanups env rrg yes _ _ _ r cmds cls h
  · cases hg : env.getRepairVm with
    | error e =>
        rw [hg] at h
        simp only [Prod.mk.injEq] at h
        obtain ⟨hr, _, hcls⟩ := h
        subst hr
        subst hcls
        rfl
    | ok dd =>
        rw [hg] at h
        dsimp only at h
        cases hmu : matchingDiskUris b3 dd with
        | error e =>
            rw [hmu] at h
            simp only [Prod.mk.injEq] at h
            obtain ⟨hr, _, hcls⟩ := h
            subst hr
            subst hcls
            rfl
        | ok uris =>
            rw [hmu] at h
            dsimp only at h
            cases hh : uris.head? with
            | none =>
                rw [hh] at h
                simp only [Prod.mk.injEq] at h
                obtain ⟨hr, _, hcls⟩ := h
                subst hr
                subst hcls
                rfl
            | some disk_uri =>
                rw [hh] at h
                dsimp only at h
                exact detachAttachClean_cleanups env rrg yes _ _ _ r cmds cls h

/-- C4: the managed-versus-unmanaged branch taken by `restore` is determined
solely by the managed-disk classification of the source VM freshly queried at
the start of the invocation: the outcome is unchanged under any value of a
persisted flag from a prior `create`, and whenever `restore` returns, the
branch executed equals the classification from the fresh query. -/
theorem c4_fresh_branch (env : RestoreEnv) (b1 b2 b3 : Str) (yes b : Bool) (vm : VM)
    (hvm : env.getVm = Except.ok vm) :
    restore { env with cachedIsManaged := b } b1 b2 b3 yes = restore env b1 b2 b3 yes ∧
      ∀ out, restore env b1 b2 b3 yes = Except.ok out →
        out.managedBranch = vm.usesManagedDisk := by
  constructor
  · cases env
    rfl
  · intro out hout
    unfold restore at hout
    rw [hvm] at hout
    simp only [ok_bind] at hout
    cases h2 : env.parseRepairVmId with
    | error e => rw [h2] at hout; simp [error_bind] at hout
    | ok pr =>
        rw [h2] at hout
        obtain ⟨rvn, rrg⟩ := pr
        simp only [ok_bind] at hout
        rcases h3 : restoreTry env b1 b2 b3 rvn rrg yes vm with ⟨exc, cmds, cls⟩
        rw [h3] at hout
        cases exc with
        | error e =>
            simp only [Except.ok.injEq] at hout
            subst hout
            rfl
        | ok sd =>
            simp only [Except.ok.injEq] at hout
            subst hout
            rfl

/-- A `restore` environment in which every collaborator succeeds. -/
def c4EnvW : RestoreEnv :=
  { getVm := Except.ok vmMan
    parseRepairVmId := Except.ok ("repair1".toList, "repairRG".toList)
    getRepairVm := Except.ok []
    azCommand := fun _ => Except.ok ("ok".toList)
    cachedIsManaged := false }

def c4OutW : RestoreOut :=
  (restore c4EnvW ("vm1".toList) ("rg1".toList) ("disk1".toList) false).toOption.getD
    { dict := [], cmds := [], cleanups := [], managedBranch := false, caught := none }

theorem c4_witness :
    restore { c4EnvW with cachedIsManaged := true } ("vm1".toList) ("rg1".toList)
        ("disk1".toList) false
      = restore c4EnvW ("vm1".toList) ("rg1".toList) ("disk1".toList) false ∧
      c4OutW.managedBranch = vmMan.usesManagedDisk :=
  ⟨(c4_fresh_branch c4EnvW ("vm1".toList) ("rg1".toList) ("disk1".toList) false true
      vmMan rfl).1,
    (c4_fresh_branch c4EnvW ("vm1".toList) ("rg1".toList) ("disk1".toList) false true
      vmMan rfl).2 c4OutW rfl⟩

/-- C9: whenever `restore` returns, cleanup of the repair resource group was
invoked exactly on the success path — once, with confirmation required unless
the bypass flag is set — and on every failing execution no cleanup was
attempted. -/
theorem c9_restore_cleanup (env : RestoreEnv) (b1 b2 b3 rvn rrg : Str) (yes : Bool)
    (out : RestoreOut)
    (hparse : env.parseRepairVmId = Except.ok (rvn, rrg))
    (hout : restore env b1 b2 b3 yes = Except.ok out) :
    (lookupRD ("status".toList) out.dict = some (RVal.s STATUS_SUCCESS) →
      out.cleanups = [(rrg, !yes)]) ∧
    (lookupRD ("status".toList) out.dict = some (RVal.s STATUS_ERROR) →
      out.cleanups = []) := by
  unfold restore at hout
  cases h1 : env.getVm with
  | error e => rw [h1] at hout; simp [error_bind] at hout
  | ok vm =>
      rw [h1] at hout
      simp only [ok_bind, hparse] at hout
      rcases h3 : restoreTry env b1 b2 b3 rvn rrg yes vm with ⟨exc, cmds, cls⟩
      rw [h3] at hout
      have hcls := restoreTry_cleanups env b1 b2 b3 rvn rrg yes vm exc cmds cls h3
      cases exc with
      | error e =>
          simp only [Except.ok.injEq] at hout
          subst hout
          simp only [Except.isOk, Except.toBool] at hcls
          constructor
          · intro hcon
            have hcon2 : (some (RVal.s STATUS_ERROR) : Option RVal)
                = some (RVal.s STATUS_SUCCESS) := hcon
            exact absurd hcon2 (by decide)
          · intro _
            exact hcls
      | ok sd =>
          simp only [Except.ok.injEq] at hout
          subst hout
          simp only [Except.isOk, Except.toBool] at hcls
          constructor
          · intro _
            exact hcls
          · intro hcon
            have hcon2 : (some (RVal.s STATUS_SUCCESS) : Option RVal)
                = some (RVal.s STATUS_ERROR) := hcon
            exact absurd hcon2 (by decide)

def c9OutW : RestoreOut :=
  (restore c4EnvW ("vm2".toList) ("rg2".toList) ("disk2".toList) false).toOption.getD
    { dict := [], cmds := [], cleanups := [], managedBranch := false, caught := none }

theorem c9_witness :
    (lookupRD ("status".toList) c9OutW.dict = some (RVal.s STATUS_SUCCESS) →
      c9OutW.cleanups = [("repairRG".toList, true)]) ∧
    (lookupRD ("status".toList) c9OutW.dict = some (RVal.s STATUS_ERROR) →
      c9OutW.cleanups = []) :=
  c9_restore_cleanup c4EnvW ("vm2".toList) ("rg2".toList) ("disk2".toList)
    ("repair1".toList) ("repairRG".toList) false c9OutW rfl rfl

/-- A `run` environment with simple collaborators for concrete evaluation. -/
def runEnvW2 : RunEnv :=
  { getVm := Except.ok vmMan
    parseRepairVmId := Except.ok ("repair2".toList, "repairRG2".toList)
    rootpath := "/ext".toList
    fetchRunScriptPath := fun _ => Except.ok ("scripts/diag.sh".toList)
    processBash := fun _ => "a b c".toList
    processPs := fun _ => "a b".toList
    azCommand := fun _ => Except.ok ("raw".toList)
    extractOutput := fun _ _ => Except.ok ("stdout text".toList, [])
    checkScriptSucceeded := fun _ => true
    parseRawLogs := fun _ => [] }

def c5CmdW : Str :=
  (buildRepairRunCommand runEnvW2 ("rg2".toList) ("vm2".toList)
    ("RunShellScript".toList) ("/ext/scripts/linux-run-driver.sh".toList)
    ("42".toList) none ["p1".toList] true).toOption.getD []

theorem c5_witness :
    (["p1".toList] : List Str) ≠ [] ∧
      (List.IsSuffix
          (" params=\"".toList ++ runParamString runEnvW2 true ["p1".toList] ++
            "\"".toList) c5CmdW ∧
        ' ' ∉ runParamString runEnvW2 true ["p1".toList]) :=
  ⟨by decide,
    c5_params_no_space runEnvW2 ("rg2".toList) ("vm2".toList) ("RunShellScript".toList)
      ("/ext/scripts/linux-run-driver.sh".toList) ("42".toList) none ["p1".toList]
      true c5CmdW (by decide) rfl⟩

def c7CmdW : Str :=
  (buildRepairRunCommand runEnvW2 ("rg2".toList) ("vm2".toList)
    ("RunShellScript".toList) ("/ext/scripts/linux-run-driver.sh".toList)
    ("42".toList) none [] true).toOption.getD []

theorem c7_witness :
    List.IsInfix ("script_path=\"./scripts/diag.sh\"".toList) c7CmdW :=
  c7_script_path runEnvW2 ("rg2".toList) ("vm2".toList) ("RunShellScript".toList)
    ("/ext/scripts/linux-run-driver.sh".toList) [] true c7CmdW rfl rfl

end VmRepair
